import Mathlib

/-!
Verification of the recipe cost calculator service (`src/index.ts`).

The development shallowly embeds the worker's pure core:

* a JavaScript value model `JVal` for the loosely typed payloads fed to
  `validateRecipe` and `validatePartialRecipe`, with JS truthiness, the
  `typeof` operator, property access (which throws a `TypeError` on
  `null`/`undefined`), and the `in` operator (which throws on
  non-objects) — exceptions are modelled as `Except Unit`;
* a typed `Recipe` model with rational arithmetic for
  `calculateRecipeCost` and the fleet cost summary route;
* a relational store model (`recipes`, `recipe_parts`, `recipe_labor`
  tables) for `createRecipe`, `updateRecipe`, `deleteRecipe` and
  `getRecipeById`.
-/

set_option maxRecDepth 4000

namespace RecipeCalc

/-- JavaScript runtime values as delivered by `request.json()` plus
`undefined` (for absent properties). Numbers are modelled as rationals
(`NaN`/`Infinity` excluded from the model). -/
inductive JVal where
  | null
  | undefined
  | bool (b : Bool)
  | num (q : ℚ)
  | str (s : String)
  | arr (xs : List JVal)
  | obj (fs : List (String × JVal))

/-- JS truthiness: `null`, `undefined`, `false`, `0`, `""` are falsy;
every object and array is truthy. -/
def truthy : JVal → Bool
  | .null => false
  | .undefined => false
  | .bool b => b
  | .num q => q != 0
  | .str s => s != ""
  | .arr _ => true
  | .obj _ => true

/-- JS `typeof`; `typeof null`, arrays, and plain objects are all
`"object"`. -/
def typeofJ : JVal → String
  | .null => "object"
  | .undefined => "undefined"
  | .bool _ => "boolean"
  | .num _ => "number"
  | .str _ => "string"
  | .arr _ => "object"
  | .obj _ => "object"

/-- Embeds `v === undefined` as a boolean (the `=== undefined` checks of the
validators). -/
def isUndefined : JVal → Bool
  | .undefined => true
  | _ => false

/-- First binding of a key in an object's field list. -/
def lookupKey : List (String × JVal) → String → Option JVal
  | [], _ => none
  | (k, v) :: fs, key => if k == key then some v else lookupKey fs key

/-- JS property access `v.k`. Throws a `TypeError` (modelled as
`Except.error ()`) on `null`/`undefined`; on primitives and on keys an
object lacks it yields `undefined`; arrays and strings expose `length`. -/
def propJ : JVal → String → Except Unit JVal
  | .null, _ => .error ()
  | .undefined, _ => .error ()
  | .obj fs, key => .ok ((lookupKey fs key).getD .undefined)
  | .arr xs, key => .ok (if key == "length" then .num xs.length else .undefined)
  | .str s, key => .ok (if key == "length" then .num s.length else .undefined)
  | .bool _, _ => .ok .undefined
  | .num _, _ => .ok .undefined

/-- The JS `in` operator `key in v`. Throws a `TypeError` when `v` is
not an object (including `null` and primitives). -/
def hasKey : JVal → String → Except Unit Bool
  | .obj fs, key => .ok (fs.any (fun kv => kv.1 == key))
  | .arr _, key => .ok (key == "length")
  | _, _ => .error ()

/-- Embeds `v < b` for a JS number comparison that is only reached (by `||`
short-circuit in the source) when `v` is a number. -/
def numLt (v : JVal) (b : ℚ) : Bool :=
  match v with
  | .num q => decide (q < b)
  | _ => false

/-- Embeds `v > b`, reached only on numbers. -/
def numGt (v : JVal) (b : ℚ) : Bool :=
  match v with
  | .num q => decide (q > b)
  | _ => false

/-- Embeds `v >= b`, reached only on numbers. -/
def numGe (v : JVal) (b : ℚ) : Bool :=
  match v with
  | .num q => decide (q ≥ b)
  | _ => false

/-- Result shape of both validators: `{valid, message?}`. -/
structure VResult where
  valid : Bool
  message : Option String
deriving DecidableEq, Repr

/-- The `requiredFields` list of `validateRecipe` (src/index.ts:53). -/
def requiredFields : List String :=
  ["name", "weight", "dimensions", "yield_percentage",
   "waste_factor", "unit_of_measure", "inventory_location",
   "parts", "labor"]

/-- Embeds `requiredFields.filter(field => !(field in recipe))`
(src/index.ts:59); each `in` test can throw on a non-object. -/
def filterMissing : List String → JVal → Except Unit (List String)
  | [], _ => .ok []
  | f :: fs, recipe => do
    let present ← hasKey recipe f
    let rest ← filterMissing fs recipe
    if present then pure rest else pure (f :: rest)

def dimsMsg : String :=
  "Invalid dimensions object. Must include length, width, height, and unit"

def partsMsg : String :=
  "Invalid parts array. Each part must have name, quantity, and cost_per_unit"

def laborMsg : String :=
  "Invalid labor array. Each labor item must have type, cost_per_hour, and hours_needed"

def weightMsg : String := "Weight must be a positive number"

def yieldMsg : String := "Yield percentage must be a number between 0 and 100"

def wasteMsg : String := "Waste factor must be a number between 0 and 1"

/-- The field portion of the dimensions check, shared verbatim by both
validators: `typeof dims !== 'object' || !dims.length || !dims.width ||
!dims.height || !dims.unit` (src/index.ts:65 and :83). Property access is
reached only on objects/arrays, so it cannot throw from here, but the
embedding keeps the `Except` plumbing of `propJ`. -/
def dimsFieldsBad (dims : JVal) : Except Unit Bool :=
  if typeofJ dims != "object" then pure true
  else do
    let l ← propJ dims "length"
    if !truthy l then pure true
    else do
      let w ← propJ dims "width"
      if !truthy w then pure true
      else do
        let h ← propJ dims "height"
        if !truthy h then pure true
        else do
          let u ← propJ dims "unit"
          pure (!truthy u)

/-- Full validation's dimensions test
`!dims || typeof dims !== 'object' || !dims.length || ...`
(src/index.ts:65). -/
def dimsBad (dims : JVal) : Except Unit Bool :=
  if !truthy dims then pure true else dimsFieldsBad dims

/-- One element of `recipe.parts.some(part => !part.name ||
part.quantity === undefined || part.cost_per_unit === undefined)`
(src/index.ts:69). Throws when the element is `null`/`undefined`. -/
def partBad (part : JVal) : Except Unit Bool := do
  let n ← propJ part "name"
  if !truthy n then pure true
  else do
    let q ← propJ part "quantity"
    if isUndefined q then pure true
    else do
      let c ← propJ part "cost_per_unit"
      pure (isUndefined c)

/-- One element of the labor `some` callback: `!labor.type ||
labor.cost_per_hour === undefined || labor.hours_needed === undefined`
(src/index.ts:73). -/
def laborItemBad (lab : JVal) : Except Unit Bool := do
  let t ← propJ lab "type"
  if !truthy t then pure true
  else do
    let c ← propJ lab "cost_per_hour"
    if isUndefined c then pure true
    else do
      let h ← propJ lab "hours_needed"
      pure (isUndefined h)

/-- Embeds `Array.prototype.some` with a possibly throwing callback:
short-circuits on the first `true`. -/
def someBad (f : JVal → Except Unit Bool) : List JVal → Except Unit Bool
  | [] => pure false
  | x :: xs => do
    let b ← f x
    if b then pure true else someBad f xs

/-- Embeds `!Array.isArray(recipe.parts) || recipe.parts.some(...)`
(src/index.ts:69). -/
def partsBad (parts : JVal) : Except Unit Bool :=
  match parts with
  | .arr xs => someBad partBad xs
  | _ => pure true

/-- Embeds `!Array.isArray(recipe.labor) || recipe.labor.some(...)`
(src/index.ts:73). -/
def laborBad (labor : JVal) : Except Unit Bool :=
  match labor with
  | .arr xs => someBad laborItemBad xs
  | _ => pure true

/-- Embeds `recipe.weight !== undefined && (typeof recipe.weight !== 'number'
|| recipe.weight < 0)` (src/index.ts:100). -/
def weightBad (wt : JVal) : Bool :=
  !isUndefined wt && (typeofJ wt != "number" || numLt wt 0)

/-- The `yield_percentage` range test (src/index.ts:104). -/
def yieldBad (y : JVal) : Bool :=
  !isUndefined y && (typeofJ y != "number" || numLt y 0 || numGt y 100)

/-- The `waste_factor` range test (src/index.ts:108): a number in
`[0, 1)`, the upper boundary excluded by `>= 1`. -/
def wasteFactorBad (w : JVal) : Bool :=
  !isUndefined w && (typeofJ w != "number" || numLt w 0 || numGe w 1)

/-- Embeds `validateRecipe` (src/index.ts:52-78): required-field presence via
`in`, then dimensions, parts and labor shape checks, each returning an
invalid verdict with its message. The `in` operator throws a `TypeError`
when the payload is `null` or a primitive. -/
def validateRecipe (recipe : JVal) : Except Unit VResult := do
  let missing ← filterMissing requiredFields recipe
  if missing.length > 0 then
    pure ⟨false, some ("Missing required fields: " ++ String.intercalate ", " missing)⟩
  else do
    let dims ← propJ recipe "dimensions"
    let dBad ← dimsBad dims
    if dBad then pure ⟨false, some dimsMsg⟩
    else do
      let parts ← propJ recipe "parts"
      let pBad ← partsBad parts
      if pBad then pure ⟨false, some partsMsg⟩
      else do
        let labor ← propJ recipe "labor"
        let lBad ← laborBad labor
        if lBad then pure ⟨false, some laborMsg⟩
        else pure ⟨true, none⟩

/-- Embeds `validatePartialRecipe` (src/index.ts:80-113): every field optional;
the dimensions field check is additionally guarded by `dims &&`, so a
present-but-falsy `dimensions` is skipped; the numeric range checks on
`weight`, `yield_percentage` and `waste_factor` run only when the field
is not `undefined`. -/
def validatePartialRecipe (recipe : JVal) : Except Unit VResult := do
  let dims ← propJ recipe "dimensions"
  let dBad ← if !isUndefined dims && truthy dims then dimsFieldsBad dims else pure false
  if dBad then pure ⟨false, some dimsMsg⟩
  else do
    let parts ← propJ recipe "parts"
    let pBad ← if !isUndefined parts then partsBad parts else pure false
    if pBad then pure ⟨false, some partsMsg⟩
    else do
      let labor ← propJ recipe "labor"
      let lBad ← if !isUndefined labor then laborBad labor else pure false
      if lBad then pure ⟨false, some laborMsg⟩
      else do
        let wt ← propJ recipe "weight"
        if weightBad wt then pure ⟨false, some weightMsg⟩
        else do
          let yld ← propJ recipe "yield_percentage"
          if yieldBad yld then pure ⟨false, some yieldMsg⟩
          else do
            let wf ← propJ recipe "waste_factor"
            if wasteFactorBad wf then pure ⟨false, some wasteMsg⟩
            else pure ⟨true, none⟩

/-! ## Typed cost-engine model -/

/-- The `Recipe.dimensions` shape (src/index.ts:5-10). -/
structure Dimensions where
  length : ℚ
  width : ℚ
  height : ℚ
  unit : String
deriving DecidableEq, Repr

/-- One element of `Recipe.parts` (src/index.ts:15-19). -/
structure Part where
  name : String
  quantity : ℚ
  cost_per_unit : ℚ
deriving DecidableEq, Repr

/-- One element of `Recipe.labor` (src/index.ts:20-24). -/
structure Labor where
  type : String
  cost_per_hour : ℚ
  hours_needed : ℚ
deriving DecidableEq, Repr

/-- The `Recipe` entity (src/index.ts:1-27). `waste_factor` is an
`Option ℚ` because at runtime the field may be `undefined`/`null`
even though the TypeScript type says `number`; the cost engine guards it
with `|| 0` while copying the raw value into its output. A stored value
of `0` is itself falsy in JS, so `Option.getD 0` models `|| 0` exactly
on rationals. -/
structure Recipe where
  id : String
  name : String
  weight : ℚ
  dimensions : Dimensions
  yield_percentage : ℚ
  waste_factor : Option ℚ
  unit_of_measure : String
  inventory_location : String
  parts : List Part
  labor : List Labor
  created_at : String
  updated_at : String
deriving DecidableEq, Repr

/-- The `CostSummary` shape (src/index.ts:29-36); `waste_factor` is copied from
the recipe without the `|| 0` defaulting. -/
structure CostSummary where
  subtotal : ℚ
  waste_factor : Option ℚ
  waste_amount : ℚ
  total : ℚ
  currency : String
  unit_of_measure : String
deriving DecidableEq, Repr

/-- The `RecipeCostBreakdown` shape (src/index.ts:38-42). -/
structure RecipeCostBreakdown where
  recipe_id : String
  recipe_name : String
  cost_summary : CostSummary
deriving DecidableEq, Repr

/-- Embeds `recipe.parts.reduce((total, part) => total + part.quantity *
part.cost_per_unit, 0)` (src/index.ts:120-122). -/
def partsCostOf (parts : List Part) : ℚ :=
  parts.foldl (fun total part => total + part.quantity * part.cost_per_unit) 0

/-- Embeds `recipe.labor.reduce((total, job) => total + job.hours_needed *
job.cost_per_hour, 0)` (src/index.ts:124-126). -/
def laborCostOf (labor : List Labor) : ℚ :=
  labor.foldl (fun total job => total + job.hours_needed * job.cost_per_hour) 0

/-- Embeds `calculateRecipeCost` (src/index.ts:115-144). Division is rational;
`1 - waste_factor = 0` cannot arise from validated updates
(`waste_factor < 1`). The `|| 'piece'` default on `unit_of_measure`
fires exactly on the empty (falsy) string. -/
def calculateRecipeCost (recipe : Recipe) : RecipeCostBreakdown :=
  let partsCost := partsCostOf recipe.parts
  let laborCost := laborCostOf recipe.labor
  let subtotal := partsCost + laborCost
  let costWithWaste := subtotal / (1 - recipe.waste_factor.getD 0)
  let wasteAmount := costWithWaste - subtotal
  { recipe_id := recipe.id
    recipe_name := recipe.name
    cost_summary :=
      { subtotal := subtotal
        waste_factor := recipe.waste_factor
        waste_amount := wasteAmount
        total := costWithWaste
        currency := "USD"
        unit_of_measure := if recipe.unit_of_measure == "" then "piece" else recipe.unit_of_measure } }

/-- One element of the `summary` array of the
`GET /api/recipes/cost/summary` route (src/index.ts:403-413). -/
structure FleetItem where
  recipe_id : String
  recipe_name : String
  total_cost : ℚ
  parts_cost : ℚ
  labor_cost : ℚ
  unit_of_measure : String
deriving DecidableEq, Repr

/-- The `totals` object of the fleet summary route (src/index.ts:419-426). -/
structure FleetTotals where
  total_parts_cost : ℚ
  total_labor_cost : ℚ
  grand_total : ℚ
  average_cost_per_recipe : ℚ
  total_recipes : ℕ
  currency : String
deriving DecidableEq, Repr

/-- Response body of the fleet summary route: `{recipes, totals}`. -/
structure FleetSummary where
  recipes : List FleetItem
  totals : FleetTotals
deriving DecidableEq, Repr

/-- The fleet cost summary computation inlined in the
`GET /api/recipes/cost/summary` route (src/index.ts:401-428): per-recipe
items recomputing `parts_cost`/`labor_cost` with the same reduce
formulas, then reduce-based totals and a guarded average. -/
def computeFleetSummary (recipes : List Recipe) : FleetSummary :=
  let summary := recipes.map (fun recipe =>
    let cost := calculateRecipeCost recipe
    { recipe_id := recipe.id
      recipe_name := recipe.name
      total_cost := cost.cost_summary.total
      parts_cost := recipe.parts.foldl (fun sum part => sum + part.quantity * part.cost_per_unit) 0
      labor_cost := recipe.labor.foldl (fun sum lab => sum + lab.hours_needed * lab.cost_per_hour) 0
      unit_of_measure := cost.cost_summary.unit_of_measure : FleetItem })
  let grandTotal := summary.foldl (fun total item => total + item.total_cost) 0
  { recipes := summary
    totals :=
      { total_parts_cost := summary.foldl (fun sum item => sum + item.parts_cost) 0
        total_labor_cost := summary.foldl (fun sum item => sum + item.labor_cost) 0
        grand_total := grandTotal
        average_cost_per_recipe :=
          if summary.length > 0 then grandTotal / summary.length else 0
        total_recipes := summary.length
        currency := "USD" } }

/-! ## Relational store model

The worker persists recipes in three tables (`recipes`,
`recipe_parts`, `recipe_labor`); rows of the two child tables are keyed
by `recipe_id`. Table contents are modelled as lists of typed rows in
insertion order. -/

/-- A row of the `recipes` table, columns as bound by `createRecipe`
(src/index.ts:251-270): dimensions flattened into `length_unit`,
`width`, `height`, `dimension_unit`. -/
structure RecipeRow where
  id : String
  name : String
  weight : ℚ
  length_unit : ℚ
  width : ℚ
  height : ℚ
  dimension_unit : String
  yield_percentage : ℚ
  waste_factor : ℚ
  unit_of_measure : String
  inventory_location : String
  created_at : String
  updated_at : String
deriving DecidableEq, Repr

/-- A row of `recipe_parts` (src/index.ts:272-277). -/
structure PartRow where
  recipe_id : String
  name : String
  quantity : ℚ
  cost_per_unit : ℚ
deriving DecidableEq, Repr

/-- A row of `recipe_labor` (src/index.ts:279-284). -/
structure LaborRow where
  recipe_id : String
  type : String
  cost_per_hour : ℚ
  hours_needed : ℚ
deriving DecidableEq, Repr

/-- The backing store: the three tables. -/
structure Store where
  recipes : List RecipeRow
  parts : List PartRow
  labor : List LaborRow
deriving DecidableEq, Repr

/-- The `recipe_parts` rows inserted for recipe `id` from a list of
parts (the INSERT loops of src/index.ts:272-277 and :320-325). -/
def partRowsFor (id : String) (ps : List Part) : List PartRow :=
  ps.map (fun p => { recipe_id := id, name := p.name, quantity := p.quantity,
                     cost_per_unit := p.cost_per_unit })

/-- The `recipe_labor` rows inserted for recipe `id` from a list of
labor entries (src/index.ts:279-284 and :330-335). -/
def laborRowsFor (id : String) (ls : List Labor) : List LaborRow :=
  ls.map (fun l => { recipe_id := id, type := l.type, cost_per_hour := l.cost_per_hour,
                     hours_needed := l.hours_needed })

/-- Embeds `getRecipeById` (src/index.ts:170-206): select the recipe row, then
its parts and labor rows by `recipe_id`. With typed non-null rows the
`|| 0` / `|| ''` read defaults are identities; the numeric
`waste_factor` column always yields a present (`some`) value. Note the
source reads the `length` dimension back from the `length_unit`
column. -/
def getRecipeById (st : Store) (id : String) : Option Recipe :=
  match st.recipes.find? (fun row => row.id == id) with
  | none => none
  | some row => some
    { id := row.id
      name := row.name
      weight := row.weight
      dimensions :=
        { length := row.length_unit
          width := row.width
          height := row.height
          unit := row.dimension_unit }
      yield_percentage := row.yield_percentage
      waste_factor := some row.waste_factor
      unit_of_measure := row.unit_of_measure
      inventory_location := row.inventory_location
      parts := (st.parts.filter (fun p => p.recipe_id == id)).map
        (fun p => { name := p.name, quantity := p.quantity, cost_per_unit := p.cost_per_unit })
      labor := (st.labor.filter (fun l => l.recipe_id == id)).map
        (fun l => { type := l.type, cost_per_hour := l.cost_per_hour, hours_needed := l.hours_needed })
      created_at := row.created_at
      updated_at := row.updated_at }

/-- The fields `createRecipe` reads off a validated POST body
(src/index.ts:247-287). -/
structure CreateData where
  name : String
  weight : ℚ
  dimensions : Dimensions
  yield_percentage : ℚ
  waste_factor : ℚ
  unit_of_measure : String
  inventory_location : String
  parts : List Part
  labor : List Labor
deriving DecidableEq, Repr

/-- Embeds `createRecipe` (src/index.ts:247-287): insert the recipe row, then
one row per part and per labor entry, then re-read through
`getRecipeById`. The generated UUID and timestamp are passed in as
parameters. -/
def createRecipe (st : Store) (data : CreateData) (id now : String) :
    Option Recipe × Store :=
  let st1 : Store :=
    { st with recipes := st.recipes ++
        [{ id := id
           name := data.name
           weight := data.weight
           length_unit := data.dimensions.length
           width := data.dimensions.width
           height := data.dimensions.height
           dimension_unit := data.dimensions.unit
           yield_percentage := data.yield_percentage
           waste_factor := data.waste_factor
           unit_of_measure := data.unit_of_measure
           inventory_location := data.inventory_location
           created_at := now
           updated_at := now }] }
  let st2 : Store := { st1 with parts := st1.parts ++ partRowsFor id data.parts }
  let st3 : Store := { st2 with labor := st2.labor ++ laborRowsFor id data.labor }
  (getRecipeById st3 id, st3)

/-- A PUT body as consumed by `updateRecipe`: every field optional
(`none` = key absent / `undefined`, matching the
`updateData.parts !== undefined` guards). -/
structure UpdateData where
  name : Option String
  weight : Option ℚ
  dimensions : Option Dimensions
  yield_percentage : Option ℚ
  waste_factor : Option ℚ
  unit_of_measure : Option String
  inventory_location : Option String
  parts : Option (List Part)
  labor : Option (List Labor)
deriving DecidableEq, Repr

/-- The all-absent PUT body `{}`. -/
def UpdateData.empty : UpdateData :=
  ⟨none, none, none, none, none, none, none, none, none⟩

/-- Embeds `updateRecipe` (src/index.ts:289-339): fetch the existing recipe
(`None` when absent), shallow-merge `{...existing, ...updateData, id,
updated_at: now}` (nested `dimensions` replaced wholesale), UPDATE the
recipes row, and — only when `parts`/`labor` were supplied — DELETE that
recipe's child rows and re-insert the supplied list. Returns the
re-read recipe and the new store. -/
def updateRecipe (st : Store) (id : String) (u : UpdateData) (now : String) :
    Option Recipe × Store :=
  match st.recipes.find? (fun row => row.id == id) with
  | none => (none, st)
  | some row =>
    let row' : RecipeRow :=
      { id := id
        name := u.name.getD row.name
        weight := u.weight.getD row.weight
        length_unit := (u.dimensions.map Dimensions.length).getD row.length_unit
        width := (u.dimensions.map Dimensions.width).getD row.width
        height := (u.dimensions.map Dimensions.height).getD row.height
        dimension_unit := (u.dimensions.map Dimensions.unit).getD row.dimension_unit
        yield_percentage := u.yield_percentage.getD row.yield_percentage
        waste_factor := u.waste_factor.getD row.waste_factor
        unit_of_measure := u.unit_of_measure.getD row.unit_of_measure
        inventory_location := u.inventory_location.getD row.inventory_location
        created_at := row.created_at
        updated_at := now }
    let st1 : Store :=
      { st with recipes := st.recipes.map (fun r => if r.id == id then row' else r) }
    let st2 : Store :=
      match u.parts with
      | none => st1
      | some ps =>
        { st1 with parts := st1.parts.filter (fun p => p.recipe_id != id) ++ partRowsFor id ps }
    let st3 : Store :=
      match u.labor with
      | none => st2
      | some ls =>
        { st2 with labor := st2.labor.filter (fun l => l.recipe_id != id) ++ laborRowsFor id ls }
    (getRecipeById st3 id, st3)

/-- Modelled from the spec: the repository's SQL schema (the
`recipe_parts` and `recipe_labor` foreign keys declared `ON DELETE
CASCADE`) is not under `src/`; `deleteRecipe` (src/index.ts:341-344)
only issues `DELETE FROM recipes WHERE id = ?` and returns
`changes > 0`, while the spec states deletion "cascad[es] to its parts
and labor rows". The cascade to the two child tables is therefore
modelled here from the spec's words. -/
def deleteRecipe (st : Store) (id : String) : Bool × Store :=
  let changed := st.recipes.any (fun row => row.id == id)
  (changed,
    { recipes := st.recipes.filter (fun row => row.id != id)
      parts := st.parts.filter (fun p => p.recipe_id != id)
      labor := st.labor.filter (fun l => l.recipe_id != id) })

/-! ## Witness payloads and auxiliary predicates -/

/-- A concrete recipe with `waste_factor = 0`. -/
def sampleRecipe : Recipe :=
  { id := "r-1", name := "widget", weight := 1
    dimensions := { length := 1, width := 2, height := 3, unit := "cm" }
    yield_percentage := 100, waste_factor := some 0
    unit_of_measure := "piece", inventory_location := "A1"
    parts := [{ name := "bolt", quantity := 2, cost_per_unit := 5 }]
    labor := [{ type := "assembly", cost_per_hour := 20, hours_needed := 3 }]
    created_at := "t0", updated_at := "t0" }

/-- The same recipe with `waste_factor` unset (`undefined`). -/
def sampleRecipeUnsetWaste : Recipe :=
  { sampleRecipe with id := "r-2", waste_factor := none }

/-- A one-recipe store used by the store-claim witnesses. -/
def sampleStore : Store :=
  { recipes := [{ id := "r-1", name := "widget", weight := 1, length_unit := 1,
                  width := 2, height := 3, dimension_unit := "cm",
                  yield_percentage := 100, waste_factor := 0,
                  unit_of_measure := "piece", inventory_location := "A1",
                  created_at := "t0", updated_at := "t0" }]
    parts := [{ recipe_id := "r-1", name := "bolt", quantity := 2, cost_per_unit := 5 }]
    labor := [{ recipe_id := "r-1", type := "assembly", cost_per_hour := 20, hours_needed := 3 }] }

/-- Whether an `Except` computation returned (rather than threw). -/
def exOk {α : Type} : Except Unit α → Bool
  | .ok _ => true
  | .error _ => false

/-- The property an amended C4 needs of a `parts`/`labor` value: when it
is an array, its elements are not `null`/`undefined` (a `null` element
makes the `some` callback throw). Non-arrays are rejected before any
element access. -/
def arrayElemsNotNullish : JVal → Prop
  | .arr xs => ∀ x ∈ xs, x ≠ .null ∧ x ≠ .undefined
  | _ => True

/-- A concrete fully valid payload whose part carries `quantity = 0` and
`cost_per_unit = 0` and whose labor entry carries zero hours and cost. -/
def zeroQuantityPayload : JVal :=
  .obj [("name", .str "widget"), ("weight", .num 1),
        ("dimensions", .obj [("length", .num 1), ("width", .num 1),
                             ("height", .num 1), ("unit", .str "cm")]),
        ("yield_percentage", .num 100), ("waste_factor", .num 0),
        ("unit_of_measure", .str "piece"), ("inventory_location", .str "A1"),
        ("parts", .arr [.obj [("name", .str "bolt"), ("quantity", .num 0),
                              ("cost_per_unit", .num 0)]]),
        ("labor", .arr [.obj [("type", .str "assembly"), ("cost_per_hour", .num 0),
                              ("hours_needed", .num 0)]])]

/-- The payload fields of a but-for-the-zero-length valid recipe. -/
def zeroLengthFields : List (String × JVal) :=
  [("name", .str "widget"), ("weight", .num 1),
   ("dimensions", .obj [("length", .num 0), ("width", .num 1),
                        ("height", .num 1), ("unit", .str "cm")]),
   ("yield_percentage", .num 100), ("waste_factor", .num 0),
   ("unit_of_measure", .str "piece"), ("inventory_location", .str "A1"),
   ("parts", .arr []), ("labor", .arr [])]

/-- A create payload that passes full validation while carrying
`waste_factor = 5`. -/
def wastefulPayload : JVal :=
  .obj [("name", .str "leaky"), ("weight", .num 1),
        ("dimensions", .obj [("length", .num 1), ("width", .num 1),
                             ("height", .num 1), ("unit", .str "cm")]),
        ("yield_percentage", .num 100), ("waste_factor", .num 5),
        ("unit_of_measure", .str "piece"), ("inventory_location", .str "A1"),
        ("parts", .arr [.obj [("name", .str "bolt"), ("quantity", .num 2),
                              ("cost_per_unit", .num 5)]]),
        ("labor", .arr [.obj [("type", .str "assembly"), ("cost_per_hour", .num 20),
                              ("hours_needed", .num 3)]])]

/-- The typed fields `createRecipe` reads off `wastefulPayload`. -/
def wastefulData : CreateData :=
  { name := "leaky", weight := 1
    dimensions := { length := 1, width := 1, height := 1, unit := "cm" }
    yield_percentage := 100, waste_factor := 5
    unit_of_measure := "piece", inventory_location := "A1"
    parts := [{ name := "bolt", quantity := 2, cost_per_unit := 5 }]
    labor := [{ type := "assembly", cost_per_hour := 20, hours_needed := 3 }] }

/-! ## Helper lemmas -/

/-- A `reduce`-style left fold of `init + Σ f` equals `init` plus the
mapped sum. -/
theorem foldl_add_map_sum {α : Type} (f : α → ℚ) (l : List α) (a : ℚ) :
    l.foldl (fun t x => t + f x) a = a + (l.map f).sum := by
  induction l generalizing a with
  | nil => simp
  | cons x xs ih => simp [ih, add_assoc]

/-- Rows surviving a `DELETE ... WHERE key = id` contain no row keyed
`id`. -/
theorem filter_eq_of_filter_ne {α : Type} (key : α → String) (id : String) (l : List α) :
    (l.filter (fun x => key x != id)).filter (fun x => key x == id) = [] := by
  rw [List.filter_eq_nil_iff]
  intro a ha
  rw [List.mem_filter] at ha
  simpa using ha.2

/-- A `SELECT ... WHERE id = ?` finds nothing among rows surviving
`DELETE ... WHERE id = ?`. -/
theorem find_eq_none_of_filter_ne {α : Type} (key : α → String) (id : String) (l : List α) :
    (l.filter (fun x => key x != id)).find? (fun x => key x == id) = none := by
  rw [List.find?_eq_none]
  intro a ha
  rw [List.mem_filter] at ha
  simpa using ha.2

/-- Freshly inserted part rows all carry the target `recipe_id`. -/
theorem filter_partRowsFor (id : String) (ps : List Part) :
    (partRowsFor id ps).filter (fun p => p.recipe_id == id) = partRowsFor id ps := by
  induction ps with
  | nil => rfl
  | cons p ps ih => simp [partRowsFor, List.filter_cons, ih]

/-- Freshly inserted labor rows all carry the target `recipe_id`. -/
theorem filter_laborRowsFor (id : String) (ls : List Labor) :
    (laborRowsFor id ls).filter (fun l => l.recipe_id == id) = laborRowsFor id ls := by
  induction ls with
  | nil => rfl
  | cons l ls ih => simp [laborRowsFor, List.filter_cons, ih]

/-! ## Claim theorems -/

/-- C1: for every recipe, `calculateRecipeCost` returns a breakdown
whose `subtotal` is `parts_cost + labor_cost` with
`parts_cost = Σ quantity × cost_per_unit` and
`labor_cost = Σ hours_needed × cost_per_hour`, whose
`total = subtotal / (1 − waste_factor)` with the falsy/unset
`waste_factor` defaulted to `0`, whose
`waste_amount = total − subtotal`, and which carries `recipe_id`,
`recipe_name`, currency `"USD"`, and the recipe's `unit_of_measure`
with `"piece"` substituted for a falsy (empty) one. -/
theorem calculateRecipeCost_spec (r : Recipe) :
    (calculateRecipeCost r).cost_summary.subtotal =
      (r.parts.map (fun p => p.quantity * p.cost_per_unit)).sum +
      (r.labor.map (fun j => j.hours_needed * j.cost_per_hour)).sum ∧
    (calculateRecipeCost r).cost_summary.total =
      (calculateRecipeCost r).cost_summary.subtotal / (1 - r.waste_factor.getD 0) ∧
    (calculateRecipeCost r).cost_summary.waste_amount =
      (calculateRecipeCost r).cost_summary.total -
        (calculateRecipeCost r).cost_summary.subtotal ∧
    (calculateRecipeCost r).recipe_id = r.id ∧
    (calculateRecipeCost r).recipe_name = r.name ∧
    (calculateRecipeCost r).cost_summary.currency = "USD" ∧
    (calculateRecipeCost r).cost_summary.unit_of_measure =
      (if r.unit_of_measure = "" then "piece" else r.unit_of_measure) := by
  refine ⟨?_, rfl, rfl, rfl, rfl, rfl, ?_⟩
  · simp [calculateRecipeCost, partsCostOf, laborCostOf, foldl_add_map_sum]
  · by_cases h : r.unit_of_measure = "" <;> simp [calculateRecipeCost, h]

/-- C3: whenever `waste_factor = 0`, the breakdown satisfies
`total = subtotal` and `waste_amount = 0`. -/
theorem zero_waste_total_eq_subtotal (r : Recipe) (h : r.waste_factor = some 0) :
    (calculateRecipeCost r).cost_summary.total =
      (calculateRecipeCost r).cost_summary.subtotal ∧
    (calculateRecipeCost r).cost_summary.waste_amount = 0 := by
  simp [calculateRecipeCost, h]

/-- Witness for C3 at a concrete recipe with `waste_factor = 0`. -/
theorem zero_waste_total_eq_subtotal_witness :
    sampleRecipe.waste_factor = some 0 ∧
    ((calculateRecipeCost sampleRecipe).cost_summary.total =
       (calculateRecipeCost sampleRecipe).cost_summary.subtotal ∧
     (calculateRecipeCost sampleRecipe).cost_summary.waste_amount = 0) :=
  ⟨rfl, zero_waste_total_eq_subtotal sampleRecipe rfl⟩

/-- C10: the `|| 0` default on `waste_factor` is applied only in the
`total` computation; the output `cost_summary.waste_factor` is the raw
recipe value, so an unset `waste_factor` yields `total = subtotal` while
`cost_summary.waste_factor` stays unset instead of `0`. -/
theorem unset_waste_factor_passthrough (r : Recipe) (h : r.waste_factor = none) :
    (calculateRecipeCost r).cost_summary.total =
      (calculateRecipeCost r).cost_summary.subtotal ∧
    (calculateRecipeCost r).cost_summary.waste_factor = none ∧
    (calculateRecipeCost r).cost_summary.waste_factor ≠ some 0 := by
  simp [calculateRecipeCost, h]

/-- Witness for C10 at a concrete recipe with unset `waste_factor`. -/
theorem unset_waste_factor_passthrough_witness :
    sampleRecipeUnsetWaste.waste_factor = none ∧
    ((calculateRecipeCost sampleRecipeUnsetWaste).cost_summary.total =
       (calculateRecipeCost sampleRecipeUnsetWaste).cost_summary.subtotal ∧
     (calculateRecipeCost sampleRecipeUnsetWaste).cost_summary.waste_factor = none ∧
     (calculateRecipeCost sampleRecipeUnsetWaste).cost_summary.waste_factor ≠ some 0) :=
  ⟨rfl, unset_waste_factor_passthrough sampleRecipeUnsetWaste rfl⟩

/-- C2: the fleet summary totals aggregate the per-recipe values:
`grand_total` is the sum of per-recipe totals, `total_parts_cost` and
`total_labor_cost` the sums of per-recipe parts and labor costs,
`total_recipes` is the count, currency is `"USD"`, and the average is
`grand_total / count` with `0` (and no division error) on an empty
list. -/
theorem computeFleetSummary_totals (recipes : List Recipe) :
    (computeFleetSummary recipes).totals.grand_total =
      (recipes.map (fun r => (calculateRecipeCost r).cost_summary.total)).sum ∧
    (computeFleetSummary recipes).totals.total_parts_cost =
      (recipes.map (fun r => (r.parts.map (fun p => p.quantity * p.cost_per_unit)).sum)).sum ∧
    (computeFleetSummary recipes).totals.total_labor_cost =
      (recipes.map (fun r => (r.labor.map (fun j => j.hours_needed * j.cost_per_hour)).sum)).sum ∧
    (computeFleetSummary recipes).totals.total_recipes = recipes.length ∧
    (computeFleetSummary recipes).totals.currency = "USD" ∧
    (computeFleetSummary recipes).totals.average_cost_per_recipe =
      (if recipes.length = 0 then 0
       else (computeFleetSummary recipes).totals.grand_total / recipes.length) ∧
    (computeFleetSummary []).totals.average_cost_per_recipe = 0 := by
  refine ⟨?_, ?_, ?_, ?_, rfl, ?_, rfl⟩
  · simp [computeFleetSummary, foldl_add_map_sum, List.map_map, Function.comp_def]
  · simp [computeFleetSummary, foldl_add_map_sum, List.map_map, Function.comp_def]
  · simp [computeFleetSummary, foldl_add_map_sum, List.map_map, Function.comp_def]
  · simp [computeFleetSummary]
  · rcases Nat.eq_zero_or_pos recipes.length with h | h
    · simp [computeFleetSummary, h]
    · simp [computeFleetSummary, h, Nat.pos_iff_ne_zero.mp h]

/-- C7: for an existing recipe, an update without a `parts`/`labor` key
leaves the corresponding child table untouched, while an update
supplying `parts` (resp. `labor`) makes the rows stored under that
`recipe_id` exactly the supplied list — previous entries are gone. -/
theorem updateRecipe_parts_labor_frame (st : Store) (id : String) (u : UpdateData)
    (now : String) (h : (st.recipes.find? (fun row => row.id == id)).isSome = true) :
    (u.parts = none → ((updateRecipe st id u now).2).parts = st.parts) ∧
    (u.labor = none → ((updateRecipe st id u now).2).labor = st.labor) ∧
    (∀ ps, u.parts = some ps →
      ((updateRecipe st id u now).2).parts.filter (fun p => p.recipe_id == id) =
        partRowsFor id ps) ∧
    (∀ ls, u.labor = some ls →
      ((updateRecipe st id u now).2).labor.filter (fun l => l.recipe_id == id) =
        laborRowsFor id ls) := by
  rw [Option.isSome_iff_exists] at h
  obtain ⟨row, hrow⟩ := h
  refine ⟨?_, ?_, ?_, ?_⟩
  · intro hp
    cases hl : u.labor <;> simp [updateRecipe, hrow, hp, hl]
  · intro hl
    cases hp : u.parts <;> simp [updateRecipe, hrow, hp, hl]
  · intro ps hp
    cases hl : u.labor <;>
      simp [updateRecipe, hrow, hp, hl, List.filter_append,
            filter_eq_of_filter_ne PartRow.recipe_id, filter_partRowsFor]
  · intro ls hl
    cases hp : u.parts <;>
      simp [updateRecipe, hrow, hp, hl, List.filter_append,
            filter_eq_of_filter_ne LaborRow.recipe_id, filter_laborRowsFor]

/-- Witness for C7: on the sample store, a waste-factor-only update
leaves both child tables unchanged, and a parts-replacing update leaves
exactly the new parts rows under the recipe's id. -/
theorem updateRecipe_parts_labor_frame_witness :
    (sampleStore.recipes.find? (fun row => row.id == "r-1")).isSome = true ∧
    ((updateRecipe sampleStore "r-1"
        { UpdateData.empty with waste_factor := some (1/2) } "t1").2).parts =
      sampleStore.parts ∧
    ((updateRecipe sampleStore "r-1"
        { UpdateData.empty with waste_factor := some (1/2) } "t1").2).labor =
      sampleStore.labor ∧
    ((updateRecipe sampleStore "r-1"
        { UpdateData.empty with
            parts := some [{ name := "nut", quantity := 1, cost_per_unit := 3 }] } "t1").2).parts.filter
        (fun p => p.recipe_id == "r-1") =
      partRowsFor "r-1" [{ name := "nut", quantity := 1, cost_per_unit := 3 }] := by
  refine ⟨rfl, ?_, ?_, ?_⟩
  · exact (updateRecipe_parts_labor_frame sampleStore "r-1"
      { UpdateData.empty with waste_factor := some (1/2) } "t1" rfl).1 rfl
  · exact (updateRecipe_parts_labor_frame sampleStore "r-1"
      { UpdateData.empty with waste_factor := some (1/2) } "t1" rfl).2.1 rfl
  · exact ((updateRecipe_parts_labor_frame sampleStore "r-1"
      { UpdateData.empty with
          parts := some [{ name := "nut", quantity := 1, cost_per_unit := 3 }] } "t1"
      rfl).2.2.1 _ rfl)

/-- C9: a successful delete removes the recipe and cascades: afterwards
no `recipe_parts` and no `recipe_labor` rows keyed by that `recipe_id`
remain, and the recipe is no longer found. The cascade itself is
modelled from the spec because the SQL schema is not under `src/`. -/
theorem deleteRecipe_cascades (st : Store) (id : String)
    (h : (deleteRecipe st id).1 = true) :
    ((deleteRecipe st id).2).parts.filter (fun p => p.recipe_id == id) = [] ∧
    ((deleteRecipe st id).2).labor.filter (fun l => l.recipe_id == id) = [] ∧
    getRecipeById ((deleteRecipe st id).2) id = none := by
  refine ⟨?_, ?_, ?_⟩
  · exact filter_eq_of_filter_ne PartRow.recipe_id id st.parts
  · exact filter_eq_of_filter_ne LaborRow.recipe_id id st.labor
  · simp [getRecipeById, deleteRecipe, find_eq_none_of_filter_ne RecipeRow.id]

/-- Witness for C9 on the sample store. -/
theorem deleteRecipe_cascades_witness :
    (deleteRecipe sampleStore "r-1").1 = true ∧
    (((deleteRecipe sampleStore "r-1").2).parts.filter
        (fun p => p.recipe_id == "r-1") = [] ∧
     ((deleteRecipe sampleStore "r-1").2).labor.filter
        (fun l => l.recipe_id == "r-1") = [] ∧
     getRecipeById ((deleteRecipe sampleStore "r-1").2) "r-1" = none) :=
  ⟨rfl, deleteRecipe_cascades sampleStore "r-1" rfl⟩

/-! ## Exception-freedom machinery for the validators -/

/-- Binding `e >>= f` over `Except` reduces on a success value. -/
@[simp] theorem except_bind_ok {α β : Type} (a : α) (f : α → Except Unit β) :
    (Except.ok a >>= f : Except Unit β) = f a := rfl

/-- Over `Except`, `pure` is `Except.ok`. -/
@[simp] theorem except_pure_eq_ok {α : Type} (a : α) :
    (pure a : Except Unit α) = Except.ok a := rfl

/-- Binding `e >>= f` over `Except` propagates a thrown error. -/
@[simp] theorem except_bind_error {α β : Type} (e : Unit) (f : α → Except Unit β) :
    (Except.error e >>= f : Except Unit β) = .error e := rfl

@[simp] theorem isUndef_undef : isUndefined .undefined = true := rfl

@[simp] theorem truthy_undefined : truthy .undefined = false := rfl

@[simp] theorem exOk_ok {α : Type} (a : α) : exOk (Except.ok a) = true := rfl

@[simp] theorem exOk_error {α : Type} (e : Unit) :
    exOk (Except.error e : Except Unit α) = false := rfl

theorem exOk_exists {α : Type} (e : Except Unit α) :
    exOk e = true ↔ ∃ a, e = .ok a := by
  cases e <;> simp [exOk]

/-- The dimensions check never throws: property accesses happen only on
truthy objects. -/
theorem dimsBad_ok (d : JVal) : exOk (dimsBad d) = true := by
  cases d <;>
    simp only [dimsBad, dimsFieldsBad, truthy, typeofJ, propJ, except_bind_ok,
      except_pure_eq_ok, exOk_ok, Bool.not_true, Bool.not_false] <;>
    (repeat' split) <;> simp_all

/-- A parts element that is not `null`/`undefined` is checked without
throwing. -/
theorem partBad_ok (p : JVal) (h0 : p ≠ .null) (h1 : p ≠ .undefined) :
    exOk (partBad p) = true := by
  cases p <;>
    first
      | exact absurd rfl h0
      | exact absurd rfl h1
      | (simp only [partBad, propJ, except_bind_ok, except_pure_eq_ok, exOk_ok] <;>
          (repeat' split) <;> simp_all)

/-- A labor element that is not `null`/`undefined` is checked without
throwing. -/
theorem laborItemBad_ok (p : JVal) (h0 : p ≠ .null) (h1 : p ≠ .undefined) :
    exOk (laborItemBad p) = true := by
  cases p <;>
    first
      | exact absurd rfl h0
      | exact absurd rfl h1
      | (simp only [laborItemBad, propJ, except_bind_ok, except_pure_eq_ok, exOk_ok] <;>
          (repeat' split) <;> simp_all)

/-- Mapping `some` over non-nullish elements never throws (parts callback). -/
theorem someBad_partBad_ok (xs : List JVal)
    (h : ∀ x ∈ xs, x ≠ .null ∧ x ≠ .undefined) :
    exOk (someBad partBad xs) = true := by
  induction xs with
  | nil => rfl
  | cons x xs ih =>
    have hx := h x (List.mem_cons_self x xs)
    obtain ⟨b, hb⟩ := (exOk_exists _).mp (partBad_ok x hx.1 hx.2)
    have ih' := ih (fun y hy => h y (List.mem_cons_of_mem x hy))
    cases b <;> simp [someBad, hb, ih']

/-- Mapping `some` over non-nullish elements never throws (labor callback). -/
theorem someBad_laborItemBad_ok (xs : List JVal)
    (h : ∀ x ∈ xs, x ≠ .null ∧ x ≠ .undefined) :
    exOk (someBad laborItemBad xs) = true := by
  induction xs with
  | nil => rfl
  | cons x xs ih =>
    have hx := h x (List.mem_cons_self x xs)
    obtain ⟨b, hb⟩ := (exOk_exists _).mp (laborItemBad_ok x hx.1 hx.2)
    have ih' := ih (fun y hy => h y (List.mem_cons_of_mem x hy))
    cases b <;> simp [someBad, hb, ih']

/-- The whole parts check never throws on a non-nullish-element value. -/
theorem partsBad_ok (v : JVal) (h : arrayElemsNotNullish v) :
    exOk (partsBad v) = true := by
  cases v <;> simp_all [partsBad, arrayElemsNotNullish, someBad_partBad_ok]

/-- The whole labor check never throws on a non-nullish-element value. -/
theorem laborBad_ok (v : JVal) (h : arrayElemsNotNullish v) :
    exOk (laborBad v) = true := by
  cases v <;> simp_all [laborBad, arrayElemsNotNullish, someBad_laborItemBad_ok]

/-- The required-fields filter never throws on an object payload. -/
theorem filterMissing_obj (l : List String) (fs : List (String × JVal)) :
    ∃ m, filterMissing l (.obj fs) = .ok m := by
  induction l with
  | nil => exact ⟨[], rfl⟩
  | cons f l ih =>
    obtain ⟨m, hm⟩ := ih
    cases hb : fs.any (fun kv => kv.1 == f)
    · exact ⟨f :: m, by simp [filterMissing, hasKey, hb, hm]⟩
    · exact ⟨m, by simp [filterMissing, hasKey, hb, hm]⟩

/-- C4 counterexample: full validation applied to the JSON value `null`
(a legal `request.json()` result) throws a `TypeError` from the `in`
operator instead of returning a verdict, so "never raises" is false. -/
theorem validateRecipe_null_throws : validateRecipe .null = .error () := rfl

/-- C4 amended: on every payload that is a JS object whose `parts` and
`labor` values, when arrays, contain no `null`/`undefined` elements,
full validation terminates and returns a `{valid, message?}` verdict
without raising; on `null` and non-object inputs the required-fields
`in` check throws a `TypeError`. -/
theorem validateRecipe_total_on_objects (fs : List (String × JVal))
    (hp : arrayElemsNotNullish ((lookupKey fs "parts").getD .undefined))
    (hl : arrayElemsNotNullish ((lookupKey fs "labor").getD .undefined)) :
    ∃ r : VResult, validateRecipe (.obj fs) = .ok r := by
  obtain ⟨m, hm⟩ := filterMissing_obj requiredFields fs
  obtain ⟨db, hdb⟩ :=
    (exOk_exists _).mp (dimsBad_ok ((lookupKey fs "dimensions").getD .undefined))
  obtain ⟨pb, hpb⟩ := (exOk_exists _).mp (partsBad_ok _ hp)
  obtain ⟨lb, hlb⟩ := (exOk_exists _).mp (laborBad_ok _ hl)
  simp only [validateRecipe, propJ, hm, hdb, hpb, hlb, except_bind_ok,
    except_pure_eq_ok]
  repeat' first
    | exact ⟨_, rfl⟩
    | split

/-- Witness for the amended C4 at the empty object payload. -/
theorem validateRecipe_total_on_objects_witness :
    arrayElemsNotNullish ((lookupKey ([] : List (String × JVal)) "parts").getD .undefined) ∧
    arrayElemsNotNullish ((lookupKey ([] : List (String × JVal)) "labor").getD .undefined) ∧
    ∃ r : VResult, validateRecipe (.obj []) = .ok r :=
  ⟨trivial, trivial, validateRecipe_total_on_objects [] trivial trivial⟩

@[simp] theorem truthy_obj (fs : List (String × JVal)) : truthy (.obj fs) = true := rfl

@[simp] theorem typeofJ_obj (fs : List (String × JVal)) : typeofJ (.obj fs) = "object" := rfl

/-- When every required field is a key of the payload, the missing-field
filter returns the empty list. -/
theorem filterMissing_nil_of_present (l : List String) (fs : List (String × JVal))
    (h : ∀ f ∈ l, fs.any (fun kv => kv.1 == f) = true) :
    filterMissing l (.obj fs) = .ok [] := by
  induction l with
  | nil => rfl
  | cons f l ih =>
    have hb := h f (List.mem_cons_self f l)
    have ih' := ih (fun g hg => h g (List.mem_cons_of_mem f hg))
    simp [filterMissing, hasKey, hb, ih']

/-- C5: full validation treats zero asymmetrically. A payload with all
required keys whose dimensions value fails the truthiness test — in
particular one with a `0` (falsy) `length`/`width`/`height`/`unit` — is
rejected with the dimensions message; a part needs a truthy `name` but
only presence (not truthiness) of `quantity`/`cost_per_unit`, a labor
entry a truthy `type` but only presence of
`cost_per_hour`/`hours_needed`; `0` is falsy yet present, so the
all-zero part and labor payload validates. -/
theorem full_validation_zero_asymmetry :
    (∀ fs dims, (∀ f ∈ requiredFields, fs.any (fun kv => kv.1 == f) = true) →
       lookupKey fs "dimensions" = some dims → dimsBad dims = .ok true →
       validateRecipe (.obj fs) = .ok ⟨false, some dimsMsg⟩) ∧
    (∀ lv wv hv uv, dimsBad (.obj [("length", lv), ("width", wv),
                                   ("height", hv), ("unit", uv)]) =
       .ok (!truthy lv || !truthy wv || !truthy hv || !truthy uv)) ∧
    (∀ nv qv cv, partBad (.obj [("name", nv), ("quantity", qv),
                                ("cost_per_unit", cv)]) =
       .ok (!truthy nv || isUndefined qv || isUndefined cv)) ∧
    (∀ tv cv hv, laborItemBad (.obj [("type", tv), ("cost_per_hour", cv),
                                     ("hours_needed", hv)]) =
       .ok (!truthy tv || isUndefined cv || isUndefined hv)) ∧
    truthy (.num 0) = false ∧ isUndefined (.num 0) = false ∧
    validateRecipe zeroQuantityPayload = .ok ⟨true, none⟩ := by
  refine ⟨?_, ?_, ?_, ?_, rfl, rfl, rfl⟩
  · intro fs dims hreq hdims hbad
    have hm := filterMissing_nil_of_present requiredFields fs hreq
    simp [validateRecipe, propJ, hm, hdims, hbad]
  · intro lv wv hv uv
    cases h1 : truthy lv <;> cases h2 : truthy wv <;> cases h3 : truthy hv <;>
      cases h4 : truthy uv <;>
      simp [dimsBad, dimsFieldsBad, propJ, lookupKey, h1, h2, h3, h4]
  · intro nv qv cv
    cases h1 : truthy nv <;> cases h2 : isUndefined qv <;> cases h3 : isUndefined cv <;>
      simp [partBad, propJ, lookupKey, h1, h2, h3]
  · intro tv cv hv
    cases h1 : truthy tv <;> cases h2 : isUndefined cv <;> cases h3 : isUndefined hv <;>
      simp [laborItemBad, propJ, lookupKey, h1, h2, h3]

/-- Witness for C5: a payload whose dimensions has `length = 0` is
rejected with the dimensions message. -/
theorem full_validation_zero_asymmetry_witness :
    (∀ f ∈ requiredFields, zeroLengthFields.any (fun kv => kv.1 == f) = true) ∧
    validateRecipe (.obj zeroLengthFields) = .ok ⟨false, some dimsMsg⟩ :=
  ⟨by decide,
   full_validation_zero_asymmetry.1 zeroLengthFields
     (.obj [("length", .num 0), ("width", .num 1), ("height", .num 1),
            ("unit", .str "cm")])
     (by decide) rfl rfl⟩

/-- C6 counterexample: the payload `{dimensions: null}` has a present
`dimensions` field that full validation's shape rule rejects
(`dimsBad null` is `true`), yet partial validation accepts the payload —
the `dims &&` guard skips every present-but-falsy dimensions value. So
"present fields must satisfy the same shape rules as full validation"
fails. -/
theorem validatePartialRecipe_falsy_dims_gap :
    validatePartialRecipe (.obj [("dimensions", .null)]) = .ok ⟨true, none⟩ ∧
    dimsBad .null = .ok true :=
  ⟨rfl, rfl⟩

/-- C6 amended: in partial validation every field is optional (the empty
payload validates); a present `dimensions` is checked against full
validation's field rule only when truthy, and accepted unchecked when
falsy; present `parts`/`labor` are checked by exactly the full-validation
rules; a present `weight` must be a non-negative number; a present
`yield_percentage` a number in `[0, 100]`; a present `waste_factor` a
number in `[0, 1)` — in particular `waste_factor = 1` is invalid. -/
theorem validatePartialRecipe_field_rules :
    validatePartialRecipe (.obj []) = .ok ⟨true, none⟩ ∧
    (∀ d, truthy d = false →
       validatePartialRecipe (.obj [("dimensions", d)]) = .ok ⟨true, none⟩) ∧
    (∀ d, truthy d = true →
       validatePartialRecipe (.obj [("dimensions", d)]) =
         (dimsFieldsBad d).map
           (fun b => if b then ⟨false, some dimsMsg⟩ else ⟨true, none⟩)) ∧
    (∀ v, isUndefined v = false →
       validatePartialRecipe (.obj [("parts", v)]) =
         (partsBad v).map
           (fun b => if b then ⟨false, some partsMsg⟩ else ⟨true, none⟩)) ∧
    (∀ v, isUndefined v = false →
       validatePartialRecipe (.obj [("labor", v)]) =
         (laborBad v).map
           (fun b => if b then ⟨false, some laborMsg⟩ else ⟨true, none⟩)) ∧
    (∀ v, isUndefined v = false →
       (validatePartialRecipe (.obj [("weight", v)]) = .ok ⟨true, none⟩ ↔
         ∃ q : ℚ, v = .num q ∧ 0 ≤ q)) ∧
    (∀ v, isUndefined v = false →
       (validatePartialRecipe (.obj [("yield_percentage", v)]) = .ok ⟨true, none⟩ ↔
         ∃ q : ℚ, v = .num q ∧ 0 ≤ q ∧ q ≤ 100)) ∧
    (∀ v, isUndefined v = false →
       (validatePartialRecipe (.obj [("waste_factor", v)]) = .ok ⟨true, none⟩ ↔
         ∃ q : ℚ, v = .num q ∧ 0 ≤ q ∧ q < 1)) ∧
    validatePartialRecipe (.obj [("waste_factor", .num 1)]) = .ok ⟨false, some wasteMsg⟩ := by
  refine ⟨rfl, ?_, ?_, ?_, ?_, ?_, ?_, ?_, by rfl⟩
  · intro d hd
    simp [validatePartialRecipe, propJ, lookupKey, hd, weightBad, yieldBad,
          wasteFactorBad]
  · intro d hd
    have hund : isUndefined d = false := by cases d <;> simp_all [truthy, isUndefined]
    rcases hfb : dimsFieldsBad d with e | b
    · simp [validatePartialRecipe, propJ, lookupKey, hd, hund, hfb, Except.map]
    · cases b <;>
        simp [validatePartialRecipe, propJ, lookupKey, hd, hund, hfb, Except.map,
              weightBad, yieldBad, wasteFactorBad]
  · intro v hv
    rcases hpb : partsBad v with e | b
    · simp [validatePartialRecipe, propJ, lookupKey, hv, hpb, Except.map]
    · cases b <;>
        simp [validatePartialRecipe, propJ, lookupKey, hv, hpb, Except.map,
              weightBad, yieldBad, wasteFactorBad]
  · intro v hv
    rcases hlb : laborBad v with e | b
    · simp [validatePartialRecipe, propJ, lookupKey, hv, hlb, Except.map]
    · cases b <;>
        simp [validatePartialRecipe, propJ, lookupKey, hv, hlb, Except.map,
              weightBad, yieldBad, wasteFactorBad]
  · intro v hv
    cases v with
    | num q =>
      by_cases hq : q < 0
      · have hq' : ¬ (0:ℚ) ≤ q := fun hge => absurd hge (not_le.mpr hq)
        simp [validatePartialRecipe, propJ, lookupKey, weightBad, yieldBad,
            wasteFactorBad, isUndefined, typeofJ, numLt, numGt, numGe, hq, hq']
      · have hq' : (0:ℚ) ≤ q := le_of_not_lt hq
        simp [validatePartialRecipe, propJ, lookupKey, weightBad, yieldBad,
            wasteFactorBad, isUndefined, typeofJ, numLt, numGt, numGe, hq, hq']
    | undefined => simp_all [isUndefined]
    | null => simp [validatePartialRecipe, propJ, lookupKey, weightBad, yieldBad,
            wasteFactorBad, isUndefined, typeofJ, numLt, numGt, numGe]
    | bool b => simp [validatePartialRecipe, propJ, lookupKey, weightBad, yieldBad,
            wasteFactorBad, isUndefined, typeofJ, numLt, numGt, numGe]
    | str s => simp [validatePartialRecipe, propJ, lookupKey, weightBad, yieldBad,
            wasteFactorBad, isUndefined, typeofJ, numLt, numGt, numGe]
    | arr xs => simp [validatePartialRecipe, propJ, lookupKey, weightBad, yieldBad,
            wasteFactorBad, isUndefined, typeofJ, numLt, numGt, numGe]
    | obj gs => simp [validatePartialRecipe, propJ, lookupKey, weightBad, yieldBad,
            wasteFactorBad, isUndefined, typeofJ, numLt, numGt, numGe]
  · intro v hv
    cases v with
    | num q =>
      by_cases h1 : q < 0
      · have h1' : ¬ (0:ℚ) ≤ q := fun hge => absurd hge (not_le.mpr h1)
        simp [validatePartialRecipe, propJ, lookupKey, weightBad, yieldBad,
            wasteFactorBad, isUndefined, typeofJ, numLt, numGt, numGe, h1, h1']
      · have h1' : (0:ℚ) ≤ q := le_of_not_lt h1
        by_cases h2 : q > 100
        · have h2' : ¬ q ≤ 100 := fun hle => absurd hle (not_le.mpr h2)
          simp [validatePartialRecipe, propJ, lookupKey, weightBad, yieldBad,
            wasteFactorBad, isUndefined, typeofJ, numLt, numGt, numGe, h1, h1', h2, h2']
        · have h2' : q ≤ 100 := le_of_not_lt h2
          simp [validatePartialRecipe, propJ, lookupKey, weightBad, yieldBad,
            wasteFactorBad, isUndefined, typeofJ, numLt, numGt, numGe, h1, h1', h2, h2']
    | undefined => simp_all [isUndefined]
    | null => simp [validatePartialRecipe, propJ, lookupKey, weightBad, yieldBad,
            wasteFactorBad, isUndefined, typeofJ, numLt, numGt, numGe]
    | bool b => simp [validatePartialRecipe, propJ, lookupKey, weightBad, yieldBad,
            wasteFactorBad, isUndefined, typeofJ, numLt, numGt, numGe]
    | str s => simp [validatePartialRecipe, propJ, lookupKey, weightBad, yieldBad,
            wasteFactorBad, isUndefined, typeofJ, numLt, numGt, numGe]
    | arr xs => simp [validatePartialRecipe, propJ, lookupKey, weightBad, yieldBad,
            wasteFactorBad, isUndefined, typeofJ, numLt, numGt, numGe]
    | obj gs => simp [validatePartialRecipe, propJ, lookupKey, weightBad, yieldBad,
            wasteFactorBad, isUndefined, typeofJ, numLt, numGt, numGe]
  · intro v hv
    cases v with
    | num q =>
      by_cases h1 : q < 0
      · have h1' : ¬ (0:ℚ) ≤ q := fun hge => absurd hge (not_le.mpr h1)
        simp [validatePartialRecipe, propJ, lookupKey, weightBad, yieldBad,
            wasteFactorBad, isUndefined, typeofJ, numLt, numGt, numGe, h1, h1']
      · have h1' : (0:ℚ) ≤ q := le_of_not_lt h1
        by_cases h2 : q ≥ 1
        · have h2' : ¬ q < 1 := not_lt.mpr h2
          simp [validatePartialRecipe, propJ, lookupKey, weightBad, yieldBad,
            wasteFactorBad, isUndefined, typeofJ, numLt, numGt, numGe, h1, h1', h2, h2']
        · have h2' : q < 1 := lt_of_not_ge h2
          simp [validatePartialRecipe, propJ, lookupKey, weightBad, yieldBad,
            wasteFactorBad, isUndefined, typeofJ, numLt, numGt, numGe, h1, h1', h2, h2']
    | undefined => simp_all [isUndefined]
    | null => simp [validatePartialRecipe, propJ, lookupKey, weightBad, yieldBad,
            wasteFactorBad, isUndefined, typeofJ, numLt, numGt, numGe]
    | bool b => simp [validatePartialRecipe, propJ, lookupKey, weightBad, yieldBad,
            wasteFactorBad, isUndefined, typeofJ, numLt, numGt, numGe]
    | str s => simp [validatePartialRecipe, propJ, lookupKey, weightBad, yieldBad,
            wasteFactorBad, isUndefined, typeofJ, numLt, numGt, numGe]
    | arr xs => simp [validatePartialRecipe, propJ, lookupKey, weightBad, yieldBad,
            wasteFactorBad, isUndefined, typeofJ, numLt, numGt, numGe]
    | obj gs => simp [validatePartialRecipe, propJ, lookupKey, weightBad, yieldBad,
            wasteFactorBad, isUndefined, typeofJ, numLt, numGt, numGe]

/-- Witness for the amended C6: a truthy dimensions object missing its
`width` is checked by the full-validation field rule (and rejected), and
a zero `waste_factor` is accepted. -/
theorem validatePartialRecipe_field_rules_witness :
    truthy (.obj [("length", .num 1)]) = true ∧
    validatePartialRecipe (.obj [("dimensions", .obj [("length", .num 1)])]) =
      (dimsFieldsBad (.obj [("length", .num 1)])).map
        (fun b => if b then ⟨false, some dimsMsg⟩ else ⟨true, none⟩) ∧
    isUndefined (.num 0) = false ∧
    (validatePartialRecipe (.obj [("waste_factor", .num 0)]) = .ok ⟨true, none⟩ ↔
      ∃ q : ℚ, JVal.num 0 = .num q ∧ 0 ≤ q ∧ q < 1) :=
  ⟨rfl,
   validatePartialRecipe_field_rules.2.2.1 (.obj [("length", .num 1)]) rfl,
   rfl,
   validatePartialRecipe_field_rules.2.2.2.2.2.2.2.1 (.num 0) rfl⟩

/-- C8 counterexample: full validation only checks that `waste_factor`
is present, so the POST payload `wastefulPayload` with
`waste_factor = 5` is accepted and `createRecipe` stores a recipe whose
`waste_factor` is `5 ≥ 1` — the claimed invariant `waste_factor ∈ [0,1)`
does not hold for create-reachable recipes. -/
theorem create_waste_invariant_cex :
    validateRecipe wastefulPayload = .ok ⟨true, none⟩ ∧
    (getRecipeById (createRecipe ⟨[], [], []⟩ wastefulData "r-1" "t0").2 "r-1").map
      Recipe.waste_factor = some (some 5) ∧
    ¬ ((5 : ℚ) < 1) := by
  refine ⟨rfl, rfl, by norm_num⟩

set_option maxHeartbeats 1600000 in
/-- C8 amended: the update path does enforce the range — any object
payload whose `waste_factor` key holds a number `q` and which partial
validation accepts satisfies `0 ≤ q < 1`; the create path checks only
presence, so the invariant holds through PUT but not through POST. -/
theorem validatePartialRecipe_waste_range (fs : List (String × JVal)) (q : ℚ)
    (hq : lookupKey fs "waste_factor" = some (.num q))
    (hok : validatePartialRecipe (.obj fs) = .ok ⟨true, none⟩) :
    0 ≤ q ∧ q < 1 := by
  simp only [validatePartialRecipe, propJ, hq, Option.getD_some, except_bind_ok,
    except_pure_eq_ok] at hok
  generalize (!isUndefined ((lookupKey fs "dimensions").getD JVal.undefined) &&
      truthy ((lookupKey fs "dimensions").getD JVal.undefined)) = c1 at hok
  generalize (!isUndefined ((lookupKey fs "parts").getD JVal.undefined)) = c2 at hok
  generalize (!isUndefined ((lookupKey fs "labor").getD JVal.undefined)) = c3 at hok
  generalize weightBad ((lookupKey fs "weight").getD JVal.undefined) = c4 at hok
  generalize yieldBad ((lookupKey fs "yield_percentage").getD JVal.undefined) = c5 at hok
  generalize dimsFieldsBad ((lookupKey fs "dimensions").getD JVal.undefined) = e1 at hok
  generalize partsBad ((lookupKey fs "parts").getD JVal.undefined) = e2 at hok
  generalize laborBad ((lookupKey fs "labor").getD JVal.undefined) = e3 at hok
  have hw : wasteFactorBad (JVal.num q) = false := by
    rcases e1 with u1 | b1 <;> rcases e2 with u2 | b2 <;> rcases e3 with u3 | b3 <;>
      simp only [except_bind_ok, except_bind_error] at hok <;>
      (repeat' split at hok) <;> simp_all
  simp only [wasteFactorBad, isUndefined, typeofJ, numLt, numGe, Bool.not_true,
    Bool.false_and, Bool.true_and, Bool.and_eq_false_imp, Bool.or_eq_false_iff,
    decide_eq_false_iff_not, not_lt, not_le] at hw
  exact ⟨(hw (by simp)).1.2, (hw (by simp)).2⟩

/-- Witness for the amended C8 at `waste_factor = 0`. -/
theorem validatePartialRecipe_waste_range_witness :
    lookupKey [("waste_factor", JVal.num 0)] "waste_factor" = some (.num 0) ∧
    validatePartialRecipe (.obj [("waste_factor", .num 0)]) = .ok ⟨true, none⟩ ∧
    (0 ≤ (0:ℚ) ∧ (0:ℚ) < 1) :=
  ⟨rfl, rfl, validatePartialRecipe_waste_range [("waste_factor", JVal.num 0)] 0 rfl rfl⟩

end RecipeCalc
